import Mathlib

/-!
Verification of the brainrot-mcp vector similarity index.

Shallow embedding of the core code paths:
* `src/backend/database.py` — `DatabaseManager.create_tables`,
  `store_embedding`, `get_embedding`, `similarity_search`;
* `src/backend/server.py` — `semantic_search`, `delete_context`;
* `src/mcp_server/server.py` — `summarize_content`, `search_contexts`.

Modelling conventions:
* Vector components and similarity scores are embedded as exact rationals
  (`ℚ`); the Python code uses floats, but every claim checked here is about
  order/threshold/branch structure that is invariant under the exact
  arithmetic reading.
* Integers (`record_id`, limits, lengths) are `Nat`; Python `rfind`'s
  possibly-negative result is `Int`.
* Text (query strings, content) is `List Char`.
* The SQLite database state is explicit: `VecState` carries the rows of the
  `contexts` table, the plain `context_vectors` table (in rowid order) and
  the `vec_contexts` vec0 virtual table (keyed by `id`, its primary key).
* The externally supplied embedding model (`SentenceTransformer.encode`)
  and the vec0 distance metric are parameters (`model`, `dist`): the spec
  treats both as model-dependent collaborators.
-/

namespace Brainrot

/-- An embedding vector: array of numbers (`np.ndarray` in the source). -/
abbrev Vec := List ℚ

/-- The dimensionality declared in `create_tables`:
`embedding FLOAT[384]` in the `vec_contexts` DDL (database.py:92-96),
matching the all-MiniLM-L6-v2 model. -/
def dim : Nat := 384

/-- Error kinds of the spec's §7 taxonomy that the embedded operations can
surface: `DimensionMismatch` (vec0 rejects a vector whose length disagrees
with the declared `FLOAT[384]` column), `InvalidQuery` (server.py:123-124
HTTP 400 "Query cannot be empty"), `NotFound` (server.py:158-159 HTTP 404). -/
inductive DbError where
  | DimensionMismatch
  | InvalidQuery
  | NotFound
deriving DecidableEq, Repr

/-- Database state after `DatabaseManager.create_tables` (database.py:74-99):
* `contexts`: rows `(id, key)` of the `contexts` table (the further columns
  play no role in the claims about the vector core);
* `context_vectors`: rows `(context_id, embedding)` of the plain table, kept
  in rowid (insertion) order — its schema is
  `id INTEGER PRIMARY KEY, context_id INTEGER NOT NULL, embedding BLOB`
  with `FOREIGN KEY (context_id) REFERENCES contexts (id) ON DELETE CASCADE`;
  note `context_id` carries no UNIQUE constraint;
* `vec_contexts`: rows `(id, embedding)` of the vec0 virtual table, whose
  `id` is its primary key. -/
structure VecState where
  contexts : List (Nat × String)
  context_vectors : List (Nat × Vec)
  vec_contexts : List (Nat × Vec)
deriving DecidableEq, Repr

/-- `DatabaseManager.store_embedding(context_id, embedding)`
(database.py:109-131), as one SQLite transaction.

* Disabled subsystem or `embedding is None`: early return, no effect.
* `INSERT OR REPLACE INTO context_vectors (context_id, embedding)`: the
  table's conflict target is its auto-assigned `id` primary key and
  `context_id` is not UNIQUE, so the statement never actually replaces —
  it appends a fresh row.
* `INSERT OR REPLACE INTO vec_contexts (id, embedding)` genuinely replaces
  the row keyed by `id`; vec0 rejects the insert when the vector's length
  differs from the declared `FLOAT[384]`, the exception propagates, and the
  connection is closed before `commit`, rolling the transaction back —
  modelled as an `error` result leaving the state unchanged. -/
def store_embedding (enabled : Bool) (s : VecState) (context_id : Nat)
    (embedding : Option Vec) : Except DbError VecState :=
  match enabled, embedding with
  | false, _ => .ok s
  | true, none => .ok s
  | true, some v =>
    if v.length = dim then
      .ok { s with
              context_vectors := s.context_vectors ++ [(context_id, v)],
              vec_contexts :=
                (s.vec_contexts.filter (fun r => r.1 != context_id))
                  ++ [(context_id, v)] }
    else .error .DimensionMismatch

/-- The state an operation leaves behind: on success the new state, on
error the old one (the transaction was rolled back). -/
def storeRun (enabled : Bool) (s : VecState) (context_id : Nat)
    (embedding : Option Vec) : VecState :=
  match store_embedding enabled s context_id embedding with
  | .ok s' => s'
  | .error _ => s

/-- `DatabaseManager.get_embedding(context_id)` (database.py:165-184):
`SELECT embedding FROM context_vectors WHERE context_id = ?` + `fetchone`.
With no ORDER BY, SQLite scans the table in rowid order, so `fetchone`
returns the oldest matching row — `find?` on the rowid-ordered list. -/
def get_embedding (enabled : Bool) (s : VecState) (context_id : Nat) :
    Option Vec :=
  if enabled then
    (s.context_vectors.find? (fun r => r.1 == context_id)).map (·.2)
  else none

/-- `delete_context(key)` (server.py:151-163): look the context up by key,
404 when absent, otherwise delete that one row (by primary key) from the
`contexts` table and commit. No `PRAGMA foreign_keys` is ever issued (SQLite
defaults to OFF) and the vec0 table has no foreign key at all, so neither
vector table is touched. -/
def delete_context (s : VecState) (key : String) : Except DbError VecState :=
  match s.contexts.find? (fun r => r.2 == key) with
  | none => .error .NotFound
  | some r0 =>
    .ok { s with contexts := s.contexts.filter (fun r => r.1 != r0.1) }

/-- The state after `delete_context`, errors leaving the state unchanged. -/
def deleteRun (s : VecState) (key : String) : VecState :=
  match delete_context s key with
  | .ok s' => s'
  | .error _ => s

/-- The tail of `DatabaseManager.similarity_search` (database.py:145-161)
once each `vec_contexts` row has been paired with its distance to the query:
the SQL `ORDER BY distance LIMIT ?` (insertion sort is a stable sort by
distance, matching SQLite's ascending ORDER BY) followed by the Python
comprehension
`[(row[0], max(0.0, 2.0 - row[1])) for row in results if (2.0 - row[1]) >= threshold]`. -/
def vecQuery (rows : List (Nat × ℚ)) (limit : Nat) (threshold : ℚ) :
    List (Nat × ℚ) :=
  (((rows.insertionSort (fun a b => a.2 ≤ b.2)).take limit).filterMap
    (fun r => if threshold ≤ 2 - r.2 then some (r.1, max 0 (2 - r.2))
              else none))

/-- `DatabaseManager.similarity_search(query_text, limit, threshold)`
(database.py:134-163). Returns `[]` when vector search is disabled or no
model is loaded; otherwise encodes the query with the external `model` and
runs the vec0 MATCH, whose per-row distance computation is the external
metric `dist`. -/
def similarity_search (enabled : Bool) (model : Option (List Char → Vec))
    (dist : Vec → Vec → ℚ) (s : VecState) (query_text : List Char)
    (limit : Nat) (threshold : ℚ) : List (Nat × ℚ) :=
  match enabled, model with
  | false, _ => []
  | true, none => []
  | true, some m =>
    vecQuery (s.vec_contexts.map (fun r => (r.1, dist (m query_text) r.2)))
      limit threshold

/-- A row of the `contexts` table as hydrated by `semantic_search`
(the fields the search pipeline reads and writes). `context_metadata` is
the JSON column: absent (`none`) or an open key-value map, modelled as an
association list. -/
structure CtxRecord where
  id : Nat
  key : String
  content : String
  context_metadata : Option (List (String × ℚ))
deriving DecidableEq, Repr

/-- Setting `m[k] = v` on a Python dict modelled as an association list:
replace the binding if the key is present, append it otherwise. -/
def setMeta (m : List (String × ℚ)) (k : String) (v : ℚ) :
    List (String × ℚ) :=
  if m.any (fun p => p.1 == k) then
    m.map (fun p => if p.1 == k then (k, v) else p)
  else m ++ [(k, v)]

/-- server.py:143-145: `if ctx.context_metadata is None: ctx.context_metadata = {}`
then `ctx.context_metadata['similarity_score'] = score`. -/
def attachScore (c : CtxRecord) (score : ℚ) : CtxRecord :=
  { c with context_metadata :=
      (some (setMeta (c.context_metadata.getD []) "similarity_score" score)) }

/-- Python dict lookup for `{ctx.id: ctx for ctx in contexts}`: a later
binding overwrites an earlier one, so the lookup returns the last matching
element — `find?` over the reversed list. -/
def dictLookup (contexts : List CtxRecord) (i : Nat) : Option CtxRecord :=
  contexts.reverse.find? (fun c => c.id == i)

/-- The hydration tail of `semantic_search` (server.py:132-148): collect the
ids, fetch the matching `contexts` rows (`ContextDB.id.in_(context_ids)`),
build `context_dict`, then walk `similar_ids` in order keeping the entries
whose id is in the dict, attaching the similarity score to each. (The
Python loop mutates the fetched row objects in place; ids coming out of the
vec0 query are distinct — `id` is that table's primary key — so attaching
per entry is the same.) -/
def hydrate (db : List CtxRecord) (similar_ids : List (Nat × ℚ)) :
    List CtxRecord :=
  let context_ids := similar_ids.map Prod.fst
  let contexts := db.filter (fun c => c.id ∈ context_ids)
  similar_ids.filterMap
    (fun p => (dictLookup contexts p.1).map (fun c => attachScore c p.2))

/-- Python `str.strip()`: drop whitespace from both ends. -/
def pyStrip (s : List Char) : List Char :=
  ((s.dropWhile Char.isWhitespace).reverse.dropWhile Char.isWhitespace).reverse

/-- `semantic_search(query, limit, threshold)` (server.py:115-148):
reject blank queries with HTTP 400 (`InvalidQuery`), run the vector query,
return `[]` when it is empty, otherwise hydrate. `db` is the `contexts`
table the SQLAlchemy session reads. -/
def semantic_search (enabled : Bool) (model : Option (List Char → Vec))
    (dist : Vec → Vec → ℚ) (s : VecState) (db : List CtxRecord)
    (query : List Char) (limit : Nat) (threshold : ℚ) :
    Except DbError (List CtxRecord) :=
  if (pyStrip query).isEmpty then .error .InvalidQuery
  else
    let similar_ids := similarity_search enabled model dist s query limit threshold
    if similar_ids.isEmpty then .ok []
    else .ok (hydrate db similar_ids)

/-- Result shape of an MCP tool call: `{"success": False, "error": ...}` or
`{"success": True, "contexts": [...]}`. -/
inductive ToolResult where
  | failure (error : List Char)
  | success (contexts : List CtxRecord)
deriving DecidableEq, Repr

/-- `search_contexts(query, limit, threshold)` (mcp_server/server.py:342-420):
blank queries are rejected up front with "Query cannot be empty"; otherwise
the stripped query is sent to the backend `/api/contexts/search/semantic`
endpoint (`backend`), an HTTP error surfaces as a failure result, and a
successful response is returned (the per-field display formatting is a
reshaping of the same records and is not modelled). -/
def search_contexts
    (backend : List Char → Nat → ℚ → Except DbError (List CtxRecord))
    (query : List Char) (limit : Nat) (threshold : ℚ) : ToolResult :=
  if (pyStrip query).isEmpty then
    .failure "Query cannot be empty".toList
  else
    match backend (pyStrip query) limit threshold with
    | .error _ => .failure "Failed to search contexts".toList
    | .ok ctxs => .success ctxs

/-- Python `str.rfind(sub)` for a single-character needle: the highest index
at which the character occurs, `-1` when absent. -/
def rfind (s : List Char) (c : Char) : Int :=
  match s.reverse.findIdx? (fun x => x == c) with
  | some j => (s.length : Int) - 1 - j
  | none => -1

/-- `summarize_content(content, max_length)` (mcp_server/server.py:91-108).
The float comparison `break_point > max_length * 0.7` is read exactly
(`10 * break_point > 7 * max_length`); every property checked below holds
on both branches, so the reading of `0.7` does not matter. -/
def summarize_content (content : List Char) (max_length : Nat) : List Char :=
  if content.length ≤ max_length then content
  else
    let truncated := content.take max_length
    let last_period := rfind truncated '.'
    let last_newline := rfind truncated '\n'
    let break_point := max last_period last_newline
    if 7 * (max_length : Int) < 10 * break_point then
      truncated.take (break_point + 1).toNat ++ "...".toList
    else
      truncated ++ "...".toList

/-- All-zero 384-dimensional vector, used for concrete scenarios. -/
def v0 : Vec := List.replicate dim 0

/-- All-one 384-dimensional vector, used for concrete scenarios. -/
def v1 : Vec := List.replicate dim 1

/-! ### Helper lemmas -/

/-- Stripping a whitespace-only string yields the empty string. -/
theorem pyStrip_eq_nil {q : List Char}
    (h : ∀ c ∈ q, c.isWhitespace = true) : pyStrip q = [] := by
  have h1 : q.dropWhile Char.isWhitespace = [] :=
    List.dropWhile_eq_nil_iff.mpr h
  simp [pyStrip, h1]

/-- The vec0 query never returns more rows than its LIMIT. -/
theorem vecQuery_length_le (rows : List (Nat × ℚ)) (limit : Nat)
    (threshold : ℚ) : (vecQuery rows limit threshold).length ≤ limit :=
  le_trans (List.length_filterMap_le _ _)
    (le_trans (List.length_take_le _ _) le_rfl)

/-- Every score the vec0 query returns clears the threshold: the row passed
the filter `2 - d ≥ threshold` and the reported score `max 0 (2 - d)` is at
least `2 - d`. -/
theorem vecQuery_score_ge (rows : List (Nat × ℚ)) (limit : Nat)
    (threshold : ℚ) :
    ∀ p ∈ vecQuery rows limit threshold, threshold ≤ p.2 := by
  intro p hp
  simp only [vecQuery, List.mem_filterMap] at hp
  obtain ⟨a, _, ha⟩ := hp
  by_cases hc : threshold ≤ 2 - a.2
  · rw [if_pos hc] at ha
    injection ha with ha
    subst ha
    exact le_trans hc (le_max_right _ _)
  · rw [if_neg hc] at ha
    cases ha

instance : IsTotal (Nat × ℚ) (fun a b => a.2 ≤ b.2) :=
  ⟨fun a b => le_total a.2 b.2⟩

instance : IsTrans (Nat × ℚ) (fun a b => a.2 ≤ b.2) :=
  ⟨fun _ _ _ h1 h2 => le_trans h1 h2⟩

/-! ### Claims -/

/-- Claim C4: with three indexed vectors at cosine distances 0.1, 0.5, 1.9
from the query for ids 1, 2, 3, the query with k = 2 and threshold = 1
returns exactly [(1, 1.9), (2, 1.5)]; id 3 does not appear (its score 0.1
is below the threshold, and it is also cut by the LIMIT). -/
theorem C4_scenario :
    vecQuery [(1, 1/10), (2, 1/2), (3, 19/10)] 2 1 =
      [(1, 19/10), (2, 3/2)] := by
  norm_num [vecQuery, List.insertionSort, List.orderedInsert,
    List.filterMap_cons, max_def]

/-- Claim C5: for every query, limit `k ≥ 0` and threshold, the similarity
search returns at most `k` entries and every returned score is at least the
threshold. -/
theorem C5_query_bounds (enabled : Bool) (model : Option (List Char → Vec))
    (dist : Vec → Vec → ℚ) (s : VecState) (q : List Char) (limit : Nat)
    (threshold : ℚ) :
    (similarity_search enabled model dist s q limit threshold).length ≤ limit ∧
    ∀ p ∈ similarity_search enabled model dist s q limit threshold,
      threshold ≤ p.2 := by
  cases enabled with
  | false => simp [similarity_search]
  | true =>
    cases model with
    | none => simp [similarity_search]
    | some m =>
      exact ⟨vecQuery_length_le _ _ _, vecQuery_score_ge _ _ _⟩

/-- Witness for C5 at a concrete state: one indexed vector at distance 0,
limit 10, threshold 0; the search returns [(1, 2)]. -/
theorem C5_query_bounds_witness :
    (similarity_search true (some (fun _ => v1)) (fun _ _ => 0)
      (⟨[], [], [(1, v0)]⟩ : VecState) [] 10 0).length ≤ 10 ∧
    (0 : ℚ) ≤ ((1, (2 : ℚ)) : Nat × ℚ).2 :=
  ⟨(C5_query_bounds true (some (fun _ => v1)) (fun _ _ => 0)
      (⟨[], [], [(1, v0)]⟩ : VecState) [] 10 0).1,
   (C5_query_bounds true (some (fun _ => v1)) (fun _ _ => 0)
      (⟨[], [], [(1, v0)]⟩ : VecState) [] 10 0).2 (1, 2) (by
        norm_num [similarity_search, vecQuery, List.insertionSort,
          List.orderedInsert, List.filterMap_cons, max_def])⟩

/-- Claim C6: storing a vector whose length is not the configured
dimensionality (384) fails with DimensionMismatch — the vec0 table rejects
it and the transaction is rolled back — and the previously stored vector is
untouched: `get_embedding` afterwards returns what it returned before. -/
theorem C6_dim_mismatch (s : VecState) (context_id : Nat) (v : Vec)
    (h : v.length ≠ dim) :
    store_embedding true s context_id (some v) = .error .DimensionMismatch ∧
    get_embedding true (storeRun true s context_id (some v)) context_id =
      get_embedding true s context_id := by
  constructor
  · simp [store_embedding, h]
  · simp [storeRun, store_embedding, h]

/-- Witness for C6: a one-component vector against a state already holding
a full 384-dimensional vector for id 1. -/
theorem C6_dim_mismatch_witness :
    store_embedding true (⟨[], [(1, v0)], [(1, v0)]⟩ : VecState) 1
        (some [(0 : ℚ)]) = .error .DimensionMismatch ∧
    get_embedding true
        (storeRun true (⟨[], [(1, v0)], [(1, v0)]⟩ : VecState) 1
          (some [(0 : ℚ)])) 1 =
      get_embedding true (⟨[], [(1, v0)], [(1, v0)]⟩ : VecState) 1 :=
  C6_dim_mismatch (⟨[], [(1, v0)], [(1, v0)]⟩ : VecState) 1 [(0 : ℚ)]
    (by decide)

/-- Claim C7: a whitespace-only query (the empty string included) is
rejected: the backend endpoint answers InvalidQuery (HTTP 400) and the MCP
tool fails with "Query cannot be empty" without returning results. -/
theorem C7_blank_query (enabled : Bool) (model : Option (List Char → Vec))
    (dist : Vec → Vec → ℚ) (s : VecState) (db : List CtxRecord)
    (limit : Nat) (threshold : ℚ) (q : List Char)
    (h : ∀ c ∈ q, c.isWhitespace = true) :
    semantic_search enabled model dist s db q limit threshold =
      .error .InvalidQuery ∧
    search_contexts (semantic_search enabled model dist s db) q limit
        threshold = .failure "Query cannot be empty".toList := by
  have h0 : pyStrip q = [] := pyStrip_eq_nil h
  constructor
  · simp [semantic_search, h0]
  · simp [search_contexts, h0]

/-- Witness for C7 at the two inputs the claim names: the empty query and
the three-space query. -/
theorem C7_blank_query_witness :
    (semantic_search true none (fun _ _ => 0) (⟨[], [], []⟩ : VecState) []
        [] 10 (1/2) = .error .InvalidQuery ∧
     search_contexts
        (semantic_search true none (fun _ _ => 0) (⟨[], [], []⟩ : VecState)
          []) [] 10 (1/2) = .failure "Query cannot be empty".toList) ∧
    (semantic_search true none (fun _ _ => 0) (⟨[], [], []⟩ : VecState) []
        "   ".toList 10 (1/2) = .error .InvalidQuery ∧
     search_contexts
        (semantic_search true none (fun _ _ => 0) (⟨[], [], []⟩ : VecState)
          []) "   ".toList 10 (1/2) =
        .failure "Query cannot be empty".toList) :=
  ⟨C7_blank_query true none (fun _ _ => 0) (⟨[], [], []⟩ : VecState) [] 10
      (1/2) [] (by decide),
   C7_blank_query true none (fun _ _ => 0) (⟨[], [], []⟩ : VecState) [] 10
      (1/2) "   ".toList (by decide)⟩

/-- Claim C8 counterexample: with the embedding subsystem disabled, the
whitespace-only query "" is still rejected with InvalidQuery — the blank
check runs before the disabled check — so `search` does not return an empty
sequence for *every* query text. -/
theorem C8_counterexample :
    semantic_search false none (fun _ _ => 0) (⟨[], [], []⟩ : VecState) []
      [] 10 (1/2) = .error .InvalidQuery := by rfl

/-- Claim C8 (amended): with the embedding subsystem disabled, `search`
returns an empty sequence without error for every query text that does not
strip to the empty string (whitespace-only queries are still rejected with
InvalidQuery). -/
theorem C8_disabled_empty (model : Option (List Char → Vec))
    (dist : Vec → Vec → ℚ) (s : VecState) (db : List CtxRecord)
    (q : List Char) (limit : Nat) (threshold : ℚ)
    (h : pyStrip q ≠ []) :
    semantic_search false model dist s db q limit threshold = .ok [] := by
  have h0 : (pyStrip q).isEmpty = false := by
    cases hq : pyStrip q with
    | nil => exact absurd hq h
    | cons a tl => rfl
  simp [semantic_search, h0, similarity_search]

/-- Witness for C8 (amended) at the query "anything" from the spec's own
example, limit 10, threshold 0.5. -/
theorem C8_disabled_empty_witness :
    semantic_search false none (fun _ _ => 0) (⟨[], [], []⟩ : VecState) []
      "anything".toList 10 (1/2) = .ok [] :=
  C8_disabled_empty none (fun _ _ => 0) (⟨[], [], []⟩ : VecState) []
    "anything".toList 10 (1/2) (by decide)

set_option maxRecDepth 40000 in
/-- Claim C1 (code bug): two upserts for the same id do NOT replace — the
`context_vectors` table's conflict target is its auto-assigned `id` primary
key, never the non-unique `context_id`, so the second `INSERT OR REPLACE`
adds a second row; `get_embedding`, a `fetchone` without ORDER BY, then
returns the first (oldest) row's vector `v0`, not the most recent `v1`. -/
theorem C1_upsert_not_replacing :
    get_embedding true
        (storeRun true
          (storeRun true (⟨[(1, "k")], [], []⟩ : VecState) 1 (some v0)) 1
          (some v1)) 1 = some v0 ∧
    v0 ≠ v1 ∧
    ((storeRun true
        (storeRun true (⟨[(1, "k")], [], []⟩ : VecState) 1 (some v0)) 1
        (some v1)).context_vectors.filter (fun r => r.1 == 1)).length = 2 := by
  refine ⟨?_, ?_, ?_⟩ <;> decide

set_option maxRecDepth 40000 in
/-- Claim C2 (code bug): after the owning record is deleted, its vector is
still there. `delete_context` removes only the `contexts` row: SQLite
foreign keys are never enabled (no `PRAGMA foreign_keys`), and the vec0
table has no foreign key at all. In the resulting state `get_embedding`
still returns the vector and the deleted id still appears in
`similarity_search` results (for any embedder, metric and query, with the
threshold set at that row's own score). -/
theorem C2_cascade_delete_missing :
    (deleteRun (storeRun true (⟨[(1, "k")], [], []⟩ : VecState) 1 (some v0))
        "k").contexts = [] ∧
    get_embedding true
        (deleteRun (storeRun true (⟨[(1, "k")], [], []⟩ : VecState) 1
          (some v0)) "k") 1 = some v0 ∧
    ∀ (m : List Char → Vec) (dist : Vec → Vec → ℚ) (q : List Char),
      1 ∈ (similarity_search true (some m) dist
            (deleteRun
              (storeRun true (⟨[(1, "k")], [], []⟩ : VecState) 1 (some v0))
              "k")
            q 10 (2 - dist (m q) v0)).map Prod.fst := by
  have hst : deleteRun
      (storeRun true (⟨[(1, "k")], [], []⟩ : VecState) 1 (some v0)) "k" =
      (⟨[], [(1, v0)], [(1, v0)]⟩ : VecState) := by decide
  refine ⟨by rw [hst], by rw [hst]; rfl, ?_⟩
  intro m dist q
  rw [hst]
  simp [similarity_search, vecQuery, List.insertionSort, List.orderedInsert]

/-- Claim C3 counterexample: two vectors at distances 2.5 and 3 for ids 7
and 3, with threshold -2, both pass the filter with clamped score 0; the
result [(7, 0), (3, 0)] has equal scores but the ids are not in ascending
order (the rows are ordered by distance, with no id tie-break). -/
theorem C3_counterexample :
    ¬ List.Pairwise
        (fun a b : Nat × ℚ => b.2 < a.2 ∨ (a.2 = b.2 ∧ a.1 < b.1))
        (vecQuery [(7, 5/2), (3, 3)] 10 (-2)) := by
  have hq : vecQuery [(7, 5/2), (3, 3)] 10 (-2) = [(7, 0), (3, 0)] := by
    norm_num [vecQuery, List.insertionSort, List.orderedInsert,
      List.filterMap_cons, max_def]
  rw [hq]
  intro h
  have h73 := (List.pairwise_cons.mp h).1 (3, 0) (List.mem_singleton.mpr rfl)
  rcases h73 with h1 | ⟨_, h2⟩
  · exact absurd h1 (by norm_num)
  · exact absurd h2 (by norm_num)

/-- Claim C3 (amended): the query result is sorted by non-increasing
similarity score (the rows come back in ascending distance order and the
score transform is antitone); the claimed ascending-record-id tie-break for
equal scores is not implemented. -/
theorem C3_query_sorted_desc (rows : List (Nat × ℚ)) (limit : Nat)
    (threshold : ℚ) :
    List.Pairwise (fun a b : Nat × ℚ => b.2 ≤ a.2)
      (vecQuery rows limit threshold) := by
  have hs : List.Pairwise (fun a b : Nat × ℚ => a.2 ≤ b.2)
      (rows.insertionSort (fun a b => a.2 ≤ b.2)) :=
    List.sorted_insertionSort _ rows
  have ht : List.Pairwise (fun a b : Nat × ℚ => a.2 ≤ b.2)
      ((rows.insertionSort (fun a b => a.2 ≤ b.2)).take limit) :=
    List.Pairwise.sublist (List.take_sublist _ _) hs
  simp only [vecQuery]
  refine List.pairwise_filterMap.mpr ?_
  refine List.Pairwise.imp ?_ ht
  intro a a' hle b hb b' hb'
  rw [Option.mem_def] at hb hb'
  by_cases h1 : threshold ≤ 2 - a.2
  · rw [if_pos h1] at hb
    by_cases h2 : threshold ≤ 2 - a'.2
    · rw [if_pos h2] at hb'
      injection hb with hb
      injection hb' with hb'
      subst hb
      subst hb'
      exact max_le_max le_rfl (by linarith)
    · rw [if_neg h2] at hb'
      cases hb'
  · rw [if_neg h1] at hb
    cases hb

/-- find? ignores a filter whose predicate holds on every possible match. -/
theorem find?_filter_eq {α : Type} (l : List α) (q P : α → Bool)
    (h : ∀ a, q a = true → P a = true) :
    (l.filter P).find? q = l.find? q := by
  induction l with
  | nil => rfl
  | cons a tl ih =>
    by_cases hq : q a = true
    · rw [List.filter_cons, if_pos (by simpa using h a hq)]
      rw [List.find?_cons_of_pos _ hq, List.find?_cons_of_pos _ hq]
    · rw [List.filter_cons]
      by_cases hP : P a = true
      · rw [if_pos (by simpa using hP), List.find?_cons_of_neg _ (by simpa using hq),
          List.find?_cons_of_neg _ (by simpa using hq)]
        exact ih
      · rw [if_neg (by simpa using hP), List.find?_cons_of_neg _ (by simpa using hq)]
        exact ih

/-- When the searched-for key occurs at most once (the list's key column is
Nodup), searching from the back finds the same element as searching from
the front. -/
theorem find?_reverse_of_nodup {α β : Type} [DecidableEq α] (f : β → α)
    (l : List β) (q : β → Bool)
    (hcomp : ∀ b b', q b = true → q b' = true → f b = f b')
    (h : (l.map f).Nodup) :
    l.reverse.find? q = l.find? q := by
  induction l with
  | nil => rfl
  | cons a tl ih =>
    rw [List.map_cons, List.nodup_cons] at h
    obtain ⟨h1, h2⟩ := h
    rw [List.reverse_cons, List.find?_append, ih h2]
    by_cases hqa : q a = true
    · have hnone : tl.find? q = none := by
        rw [List.find?_eq_none]
        intro b hb hqb
        exact h1 (by rw [← hcomp b a hqb hqa]; exact List.mem_map_of_mem f hb)
      rw [hnone]
      simp [List.find?, hqa]
    · have hsingle : List.find? q [a] = none := by
        simp [List.find?, hqa]
      rw [hsingle, List.find?_cons_of_neg _ hqa]
      cases tl.find? q <;> rfl

/-- The dict lookup in `semantic_search`'s hydration — built from the
`contexts` rows whose id is among the searched ids — agrees with a direct
primary-key lookup in the full table, as long as the table's ids are
unique (they are: `id` is the primary key). -/
theorem dictLookup_filter_eq (db : List CtxRecord) (ids : List Nat)
    (i : Nat) (hi : i ∈ ids) (h : (db.map (fun c => c.id)).Nodup) :
    dictLookup (db.filter (fun c => c.id ∈ ids)) i =
      db.find? (fun c => c.id == i) := by
  unfold dictLookup
  rw [find?_reverse_of_nodup (fun c => c.id) _ _
      (fun b b' hb hb' => by
        have hb1 : b.id = i := by simpa using hb
        have hb2 : b'.id = i := by simpa using hb'
        show b.id = b'.id
        rw [hb1, hb2])
      (List.Nodup.sublist (List.Sublist.map _ (List.filter_sublist _)) h)]
  exact find?_filter_eq db _ _
    (fun a ha => by
      have : a.id = i := by simpa using ha
      simpa using this ▸ hi)

/-- Claim C9: hydration maps the (record_id, score) sequence through the
Record Store in order — an entry whose id has no matching record is
dropped, nothing is re-sorted, and each surviving record gets its score
attached. The hypothesis states that the `contexts` table's ids are unique
(id is its primary key). -/
theorem C9_hydration_preserves_order (db : List CtxRecord)
    (similar_ids : List (Nat × ℚ))
    (h : (db.map (fun c => c.id)).Nodup) :
    hydrate db similar_ids =
      similar_ids.filterMap
        (fun p => (db.find? (fun c => c.id == p.1)).map
          (fun c => attachScore c p.2)) := by
  simp only [hydrate]
  refine List.filterMap_congr ?_
  intro p hp
  rw [dictLookup_filter_eq db _ p.1 (List.mem_map_of_mem Prod.fst hp) h]

/-- Witness for C9: two records with ids 1 and 2; the query sequence
[(2, 1), (5, 2), (1, 3)] hydrates to the id-2 record then the id-1 record,
in that order, with id 5 skipped. -/
theorem C9_hydration_witness :
    hydrate
        ([⟨1, "a", "ca", none⟩, ⟨2, "b", "cb", none⟩] : List CtxRecord)
        [(2, 1), (5, 2), (1, 3)] =
      [(2, 1), (5, 2), (1, 3)].filterMap
        (fun p => (([⟨1, "a", "ca", none⟩, ⟨2, "b", "cb", none⟩] :
            List CtxRecord).find? (fun c => c.id == p.1)).map
          (fun c => attachScore c p.2)) :=
  C9_hydration_preserves_order
    ([⟨1, "a", "ca", none⟩, ⟨2, "b", "cb", none⟩] : List CtxRecord)
    [(2, 1), (5, 2), (1, 3)] (by decide)

/-- Claim C10: `summarize_content` returns the content unchanged when it
fits in `max_length`; otherwise it returns a prefix of the content followed
by "...", of total length at most `max_length + 3`. -/
theorem C10_summarize_content_spec (content : List Char) (max_length : Nat)
    (hml : 0 < max_length) :
    (content.length ≤ max_length →
      summarize_content content max_length = content) ∧
    (max_length < content.length →
      ∃ pre, summarize_content content max_length = pre ++ "...".toList ∧
        pre <+: content ∧
        (summarize_content content max_length).length ≤ max_length + 3) := by
  constructor
  · intro hle
    simp [summarize_content, hle]
  · intro hlt
    have hnle : ¬ content.length ≤ max_length := not_le.mpr hlt
    have hdots : ("...".toList).length = 3 := by decide
    have htr : (content.take max_length).length = max_length := by
      rw [List.length_take]
      omega
    simp only [summarize_content]
    rw [if_neg hnle]
    by_cases hbp : 7 * (max_length : Int) <
        10 * (max (rfind (content.take max_length) '.')
                  (rfind (content.take max_length) '\n'))
    · rw [if_pos hbp]
      refine ⟨(content.take max_length).take
          ((max (rfind (content.take max_length) '.')
                (rfind (content.take max_length) '\n')) + 1).toNat,
        rfl, ?_, ?_⟩
      · rw [List.take_take]
        exact ⟨content.drop _, List.take_append_drop _ _⟩
      · rw [List.length_append, hdots]
        have hle2 : ((content.take max_length).take
            ((max (rfind (content.take max_length) '.')
                  (rfind (content.take max_length) '\n')) + 1).toNat).length
            ≤ max_length := by
          rw [List.length_take, htr]
          exact min_le_right _ _
        omega
    · rw [if_neg hbp]
      refine ⟨content.take max_length,
        rfl, ⟨content.drop max_length, List.take_append_drop _ _⟩, ?_⟩
      rw [List.length_append, hdots, htr]

/-- Witness for C10: content of 8 characters with max_length 5 truncates to
the first five characters plus "...". -/
theorem C10_summarize_content_witness :
    ∃ pre, summarize_content "abcdefgh".toList 5 = pre ++ "...".toList ∧
      pre <+: "abcdefgh".toList ∧
      (summarize_content "abcdefgh".toList 5).length ≤ 5 + 3 :=
  (C10_summarize_content_spec "abcdefgh".toList 5 (by decide)).2 (by decide)

end Brainrot
